import Mathlib

/-!
Shallow embedding of `src/jax/experimental/fused_attention_stableHLO.py`:
the custom fused-attention operator extension. The embedding covers the
forward/backward abstract-evaluation rules, the backend-config encoder,
the default-layout helper and the two CUDA lowering rules, translated
directly from the Python source. Python `assert` failures and tuple-unpack
failures (`ValueError`) are modelled as explicit error values of an
`Except`; each error constructor names the raise site in the source.
-/

namespace FusedAttention

/-- A JAX numpy dtype tag. The source only distinguishes `float16` and
`bfloat16` from everything else; a few representative other dtypes are
included so that "any other dtype" is quantifiable. -/
inductive JnpDtype
  | float16
  | bfloat16
  | float32
  | float64
  | int32
deriving DecidableEq, Repr

/-- `jax.dtypes.canonicalize_dtype` under the default configuration
(64-bit types disabled): 64-bit floats canonicalize to 32-bit, the other
modelled dtypes are fixed points. -/
def canonicalize_dtype : JnpDtype → JnpDtype
  | .float64 => .float32
  | d => d

/-- `jax._src.core.ShapedArray`: an abstract tensor descriptor, a shape
(list of axis lengths) together with a dtype tag. -/
structure ShapedArray where
  shape : List Nat
  dtype : JnpDtype
deriving DecidableEq, Repr

/-- Errors raised by the abstract-evaluation functions, one constructor per
raise site in the source:
`dtypeMismatch` — `assert query_dtype == key_dtype == value_dtype` fails
(an `AssertionError`);
`unsupportedDtype` — `assert query_dtype in [jnp.float16, jnp.bfloat16]`
fails (an `AssertionError`);
`queryRankError` — the 4-tuple unpack of `query.shape` fails (a
`ValueError`, the query does not have rank 4);
`keyRankError` — the 4-tuple unpack of `key.shape` fails (a `ValueError`,
the key does not have rank 4). -/
inductive AbstractEvalError
  | dtypeMismatch
  | unsupportedDtype
  | queryRankError
  | keyRankError
deriving DecidableEq, Repr

/-- `_dot_product_attention_fwd_abstract(query, key, value, scale)`:
canonicalizes the three dtypes, asserts they agree and are fp16/bf16,
unpacks `query.shape` as `(batch_size, q_seq_len, num_heads, head_dim)`
and `key.shape` as `(_, kv_seq_len, _, _)`, and returns the output
descriptor and the activation descriptor. Statements execute in source
order: both dtype asserts run before either shape unpack, and the value
shape is never inspected. -/
def _dot_product_attention_fwd_abstract (query key value : ShapedArray)
    (_scale : Rat) : Except AbstractEvalError (ShapedArray × ShapedArray) :=
  let query_dtype := canonicalize_dtype query.dtype
  let key_dtype := canonicalize_dtype key.dtype
  let value_dtype := canonicalize_dtype value.dtype
  if ¬ (query_dtype = key_dtype ∧ key_dtype = value_dtype) then
    .error .dtypeMismatch
  else if ¬ (query_dtype = .float16 ∨ query_dtype = .bfloat16) then
    .error .unsupportedDtype
  else
    match query.shape with
    | [batch_size, q_seq_len, num_heads, head_dim] =>
      match key.shape with
      | [_, kv_seq_len, _, _] =>
        .ok (⟨[batch_size, q_seq_len, num_heads, head_dim], query_dtype⟩,
             ⟨[batch_size, num_heads, q_seq_len, kv_seq_len], query_dtype⟩)
      | _ => .error .keyRankError
    | _ => .error .queryRankError

/-- `_dot_product_attention_bwd_abstract(grad_output, query, key, value,
activation, scale)`: canonicalizes the query/key/value dtypes, asserts
they agree and are fp16/bf16, and returns the three gradient descriptors
built from `query.shape`, `key.shape` and `value.shape`. The
`grad_output` and `activation` arguments are never inspected, and no
shape is unpacked. -/
def _dot_product_attention_bwd_abstract
    (_grad_output query key value _activation : ShapedArray) (_scale : Rat) :
    Except AbstractEvalError (ShapedArray × ShapedArray × ShapedArray) :=
  let query_dtype := canonicalize_dtype query.dtype
  let key_dtype := canonicalize_dtype key.dtype
  let value_dtype := canonicalize_dtype value.dtype
  if ¬ (query_dtype = key_dtype ∧ key_dtype = value_dtype) then
    .error .dtypeMismatch
  else if ¬ (query_dtype = .float16 ∨ query_dtype = .bfloat16) then
    .error .unsupportedDtype
  else
    .ok (⟨query.shape, query_dtype⟩,
         ⟨key.shape, key_dtype⟩,
         ⟨value.shape, value_dtype⟩)

/-- An MLIR `ir` element type, as seen by the lowering rules
(`query_type.element_type`). Only `BF16Type` and `F16Type` have a backend
type tag; representative other element types are included. -/
inductive IrElementType
  | bf16Type
  | f16Type
  | f32Type
  | f64Type
  | i32Type
deriving DecidableEq, Repr

/-- `element_type_to_backend_config_type_mapping(dtype)`: a two-entry
dictionary lookup via `.get`, yielding `None` for any element type other
than `BF16Type`/`F16Type`. -/
def element_type_to_backend_config_type_mapping :
    IrElementType → Option String
  | .bf16Type => some "BF16"
  | .f16Type => some "F16"
  | _ => none

/-- The `"algorithm"` block of the backend config. -/
structure AlgorithmConfig where
  algo_id : String
  math_type : String
  tuning_knobs : List (String × String)
  is_cudnn_frontend : Bool
  workspace_size : String
deriving DecidableEq, Repr

/-- One dot-dimension-numbers block: contracting and batch axis indices
for the left and right operand of one GEMM stage. -/
structure DotDimensionNumbers where
  lhs_contracting_dimensions : List String
  rhs_contracting_dimensions : List String
  lhs_batch_dimensions : List String
  rhs_batch_dimensions : List String
deriving DecidableEq, Repr

/-- The `"layout"` block of the intermediate-tensor shape descriptor. -/
structure LayoutConfig where
  dim_level_types : List String
  dim_unique : List Bool
  dim_ordered : List Bool
  minor_to_major : List String
  tiles : List String
  element_size_in_bits : String
  memory_space : String
  index_primitive_type : String
  pointer_primitive_type : String
  dynamic_shape_metadata_prefix_bytes : String
deriving DecidableEq, Repr

/-- The `"intermediate_tensor_shape"` block: element type tag (absent when
the dtype has no tag), stringified dimensions, and layout. -/
structure IntermediateTensorShape where
  element_type : Option String
  dimensions : List String
  tuple_shapes : List String
  layout : LayoutConfig
  is_dynamic_dimension : List Bool
deriving DecidableEq, Repr

/-- The full backend configuration record built by
`create_dot_product_attention_backend_config`, one field per key of the
Python dict. -/
structure BackendConfig where
  algorithm : AlgorithmConfig
  fmha_scale : Rat
  dropout_rate : Rat
  bmm1_dot_dimension_numbers : DotDimensionNumbers
  bmm2_dot_dimension_numbers : DotDimensionNumbers
  bmm1_grad_gemm1_dot_dimension_numbers : DotDimensionNumbers
  bmm1_grad_gemm2_dot_dimension_numbers : DotDimensionNumbers
  bmm2_grad_gemm1_dot_dimension_numbers : DotDimensionNumbers
  bmm2_grad_gemm2_dot_dimension_numbers : DotDimensionNumbers
  intermediate_tensor_shape : IntermediateTensorShape
  seed : String
  is_flash_attention : Bool
  is_causal_mask : Bool
deriving DecidableEq, Repr

/-- `create_dot_product_attention_backend_config(batch_size, num_heads,
seq_q, seq_kv, dtype, fmha_scale, dropout_rate, is_flash_attention,
is_causal_mask)`: builds the backend config dict. Every value is copied
field-for-field from the Python literal; the scale, dropout rate and the
two boolean flags are passed through, the seed is the literal `"42"`, and
the six dimension-numbering blocks are literals. -/
def create_dot_product_attention_backend_config
    (batch_size num_heads seq_q seq_kv : Nat) (dtype : IrElementType)
    (fmha_scale dropout_rate : Rat)
    (is_flash_attention is_causal_mask : Bool) : BackendConfig :=
  { algorithm :=
      { algo_id := "0"
        math_type := "TENSOR_OP_MATH"
        tuning_knobs := [("17", "1"), ("24", "0")]
        is_cudnn_frontend := true
        workspace_size := "0" }
    fmha_scale := fmha_scale
    dropout_rate := dropout_rate
    bmm1_dot_dimension_numbers :=
      { lhs_contracting_dimensions := ["3"]
        rhs_contracting_dimensions := ["3"]
        lhs_batch_dimensions := ["0", "2"]
        rhs_batch_dimensions := ["0", "2"] }
    bmm2_dot_dimension_numbers :=
      { lhs_contracting_dimensions := ["3"]
        rhs_contracting_dimensions := ["1"]
        lhs_batch_dimensions := ["0", "1"]
        rhs_batch_dimensions := ["0", "2"] }
    bmm1_grad_gemm1_dot_dimension_numbers :=
      { lhs_contracting_dimensions := ["2"]
        rhs_contracting_dimensions := ["1"]
        lhs_batch_dimensions := ["0", "1"]
        rhs_batch_dimensions := ["0", "2"] }
    bmm1_grad_gemm2_dot_dimension_numbers :=
      { lhs_contracting_dimensions := ["3"]
        rhs_contracting_dimensions := ["1"]
        lhs_batch_dimensions := ["0", "1"]
        rhs_batch_dimensions := ["0", "2"] }
    bmm2_grad_gemm1_dot_dimension_numbers :=
      { lhs_contracting_dimensions := ["2"]
        rhs_contracting_dimensions := ["1"]
        lhs_batch_dimensions := ["0", "1"]
        rhs_batch_dimensions := ["0", "2"] }
    bmm2_grad_gemm2_dot_dimension_numbers :=
      { lhs_contracting_dimensions := ["3"]
        rhs_contracting_dimensions := ["3"]
        lhs_batch_dimensions := ["0", "2"]
        rhs_batch_dimensions := ["0", "2"] }
    intermediate_tensor_shape :=
      { element_type := element_type_to_backend_config_type_mapping dtype
        dimensions :=
          [toString batch_size, toString num_heads,
           toString seq_q, toString seq_kv]
        tuple_shapes := []
        layout :=
          { dim_level_types := []
            dim_unique := []
            dim_ordered := []
            minor_to_major := ["3", "2", "1", "0"]
            tiles := []
            element_size_in_bits := "0"
            memory_space := "0"
            index_primitive_type := "PRIMITIVE_TYPE_INVALID"
            pointer_primitive_type := "PRIMITIVE_TYPE_INVALID"
            dynamic_shape_metadata_prefix_bytes := "0" }
        is_dynamic_dimension := [false, false, false, false] }
    seed := "42"
    is_flash_attention := is_flash_attention
    is_causal_mask := is_causal_mask }

/-- `default_layouts(*shapes)`: for each shape of rank `n`, the layout
`range(len(shape) - 1, -1, -1)`, i.e. `[n-1, ..., 0]`. -/
def default_layouts (shapes : List (List Nat)) : List (List Nat) :=
  shapes.map (fun shape => (List.range shape.length).reverse)

/-- `ir.RankedTensorType`: what a lowering rule reads off an MLIR operand —
its shape and element type. -/
structure RankedTensorType where
  shape : List Nat
  element_type : IrElementType
deriving DecidableEq, Repr

/-- Errors raised during lowering, one constructor per raise site: the
4-tuple unpack of `query_shape` / `key_shape` fails (a `ValueError`) when
the corresponding tensor does not have rank 4. -/
inductive LoweringError
  | queryRankError
  | keyRankError
deriving DecidableEq, Repr

/-- The kernel-invocation value emitted by a lowering rule: the
`custom_call` target name, ordered result types, the backend config, and
the operand/result memory layouts. (The operand SSA values themselves
carry no further static data beyond their `RankedTensorType`s, which the
caller passes in.) -/
structure CustomCallDescriptor where
  call_target_name : String
  result_types : List RankedTensorType
  backend_config : BackendConfig
  operand_layouts : List (List Nat)
  result_layouts : List (List Nat)
deriving DecidableEq, Repr

/-- `_dot_product_attention_fwd_cuda_lowering(ctx, query, key, value,
scale)`: unpacks the query shape as `(batch_size, q_seq_len, num_heads,
head_dim)` and the key shape as `(_, kv_seq_len, _, _)`, builds the
backend config with dropout rate 0 and both flags `False`, and emits one
`custom_call` to `__cudnn$fhmaSoftmax` with operands (query, key, value),
results (output, activation) and default layouts. -/
def _dot_product_attention_fwd_cuda_lowering
    (query key value : RankedTensorType) (scale : Rat) :
    Except LoweringError CustomCallDescriptor :=
  match query.shape with
  | [batch_size, q_seq_len, num_heads, head_dim] =>
    match key.shape with
    | [_, kv_seq_len, _, _] =>
      let output_shape := [batch_size, q_seq_len, num_heads, head_dim]
      let activation_shape := [batch_size, num_heads, q_seq_len, kv_seq_len]
      let cfg := create_dot_product_attention_backend_config batch_size
        num_heads q_seq_len kv_seq_len query.element_type scale 0 false false
      .ok { call_target_name := "__cudnn$fhmaSoftmax"
            result_types :=
              [⟨output_shape, query.element_type⟩,
               ⟨activation_shape, query.element_type⟩]
            backend_config := cfg
            operand_layouts :=
              default_layouts [query.shape, key.shape, value.shape]
            result_layouts :=
              default_layouts [output_shape, activation_shape] }
    | _ => .error .keyRankError
  | _ => .error .queryRankError

/-- `_dot_product_attention_bwd_cuda_lowering(ctx, grad_output, query,
key, value, activation, scale)`: unpacks the query shape as `(batch_size,
q_seq_len, num_heads, _)` and the key shape as `(_, kv_seq_len, _, _)`,
builds the backend config with dropout rate 0 and both flags `False`, and
emits one `custom_call` to `__cudnn$fhmaSoftmaxBackward` with operands
(query, key, value, activation), results (grad query, grad key, grad
value) and default layouts. -/
def _dot_product_attention_bwd_cuda_lowering
    (_grad_output query key value activation : RankedTensorType)
    (scale : Rat) : Except LoweringError CustomCallDescriptor :=
  match query.shape with
  | [batch_size, q_seq_len, num_heads, _] =>
    match key.shape with
    | [_, kv_seq_len, _, _] =>
      let cfg := create_dot_product_attention_backend_config batch_size
        num_heads q_seq_len kv_seq_len query.element_type scale 0 false false
      .ok { call_target_name := "__cudnn$fhmaSoftmaxBackward"
            result_types :=
              [⟨query.shape, query.element_type⟩,
               ⟨key.shape, key.element_type⟩,
               ⟨value.shape, value.element_type⟩]
            backend_config := cfg
            operand_layouts :=
              default_layouts
                [query.shape, key.shape, value.shape, activation.shape]
            result_layouts :=
              default_layouts [query.shape, key.shape, value.shape] }
    | _ => .error .keyRankError
  | _ => .error .queryRankError

/-- The kernel invocation emitted by the forward lowering on query = key =
value = a rank-4 `(2, 128, 4, 64)` fp16 tensor with scale 1, spelled out
as a literal (used to instantiate lowering theorems concretely). -/
def fwd_lowering_example : CustomCallDescriptor :=
  { call_target_name := "__cudnn$fhmaSoftmax"
    result_types :=
      [⟨[2, 128, 4, 64], .f16Type⟩, ⟨[2, 4, 128, 128], .f16Type⟩]
    backend_config :=
      create_dot_product_attention_backend_config 2 4 128 128 .f16Type
        1 0 false false
    operand_layouts := [[3, 2, 1, 0], [3, 2, 1, 0], [3, 2, 1, 0]]
    result_layouts := [[3, 2, 1, 0], [3, 2, 1, 0]] }

/-- The kernel invocation emitted by the backward lowering on the matching
inputs (query/key/value/grad-output `(2, 128, 4, 64)`, activation
`(2, 4, 128, 128)`, all fp16, scale 1), spelled out as a literal. -/
def bwd_lowering_example : CustomCallDescriptor :=
  { call_target_name := "__cudnn$fhmaSoftmaxBackward"
    result_types :=
      [⟨[2, 128, 4, 64], .f16Type⟩, ⟨[2, 128, 4, 64], .f16Type⟩,
       ⟨[2, 128, 4, 64], .f16Type⟩]
    backend_config :=
      create_dot_product_attention_backend_config 2 4 128 128 .f16Type
        1 0 false false
    operand_layouts :=
      [[3, 2, 1, 0], [3, 2, 1, 0], [3, 2, 1, 0], [3, 2, 1, 0]]
    result_layouts := [[3, 2, 1, 0], [3, 2, 1, 0], [3, 2, 1, 0]] }

/-- C1: for rank-4 query/key/value descriptors sharing one dtype in
{fp16, bf16} (kvSeqLen read from axis 1 of the key), forward abstract
evaluation returns exactly the output descriptor of shape
(batch, qSeqLen, numHeads, headDim) and the activation descriptor of
shape (batch, numHeads, qSeqLen, kvSeqLen), both with the shared dtype. -/
theorem C1_fwd_abstract_descriptors
    (query key value : ShapedArray) (scale : Rat)
    (b q h d kb kv kh kd vb vs vh vd : Nat)
    (hq : query.shape = [b, q, h, d])
    (hk : key.shape = [kb, kv, kh, kd])
    (hv : value.shape = [vb, vs, vh, vd])
    (hqk : query.dtype = key.dtype)
    (hkv : key.dtype = value.dtype)
    (hsupp : query.dtype = JnpDtype.float16 ∨
             query.dtype = JnpDtype.bfloat16) :
    _dot_product_attention_fwd_abstract query key value scale =
      .ok (⟨[b, q, h, d], query.dtype⟩, ⟨[b, h, q, kv], query.dtype⟩) := by
  rcases hsupp with hs | hs <;>
    simp [_dot_product_attention_fwd_abstract, canonicalize_dtype, hq, hk,
      ← hqk, ← hkv, hs]

/-- Witness for C1 at the spec's end-to-end scenario shapes. -/
theorem C1_fwd_abstract_descriptors_witness :
    _dot_product_attention_fwd_abstract ⟨[2, 128, 4, 64], .bfloat16⟩
        ⟨[2, 128, 4, 64], .bfloat16⟩ ⟨[2, 128, 4, 64], .bfloat16⟩ 0.125 =
      .ok (⟨[2, 128, 4, 64], .bfloat16⟩, ⟨[2, 4, 128, 128], .bfloat16⟩) :=
  C1_fwd_abstract_descriptors ⟨[2, 128, 4, 64], .bfloat16⟩
    ⟨[2, 128, 4, 64], .bfloat16⟩ ⟨[2, 128, 4, 64], .bfloat16⟩ 0.125
    2 128 4 64 2 128 4 64 2 128 4 64 rfl rfl rfl rfl rfl (Or.inr rfl)

/-- C2: for backward abstract evaluation with query/key/value sharing one
dtype in {fp16, bf16}, the result is exactly the three gradient
descriptors whose shapes and dtypes match query, key and value
respectively. -/
theorem C2_bwd_abstract_grad_descriptors
    (grad_output query key value activation : ShapedArray) (scale : Rat)
    (hqk : query.dtype = key.dtype)
    (hkv : key.dtype = value.dtype)
    (hsupp : query.dtype = JnpDtype.float16 ∨
             query.dtype = JnpDtype.bfloat16) :
    _dot_product_attention_bwd_abstract grad_output query key value
        activation scale =
      .ok (⟨query.shape, query.dtype⟩, ⟨key.shape, key.dtype⟩,
           ⟨value.shape, value.dtype⟩) := by
  rcases hsupp with hs | hs <;>
    simp [_dot_product_attention_bwd_abstract, canonicalize_dtype,
      ← hqk, ← hkv, hs]

/-- Witness for C2 at the spec's end-to-end scenario shapes. -/
theorem C2_bwd_abstract_grad_descriptors_witness :
    _dot_product_attention_bwd_abstract ⟨[2, 128, 4, 64], .bfloat16⟩
        ⟨[2, 128, 4, 64], .bfloat16⟩ ⟨[2, 128, 4, 64], .bfloat16⟩
        ⟨[2, 128, 4, 64], .bfloat16⟩ ⟨[2, 4, 128, 128], .bfloat16⟩ 0.125 =
      .ok (⟨[2, 128, 4, 64], .bfloat16⟩, ⟨[2, 128, 4, 64], .bfloat16⟩,
           ⟨[2, 128, 4, 64], .bfloat16⟩) :=
  C2_bwd_abstract_grad_descriptors ⟨[2, 128, 4, 64], .bfloat16⟩
    ⟨[2, 128, 4, 64], .bfloat16⟩ ⟨[2, 128, 4, 64], .bfloat16⟩
    ⟨[2, 128, 4, 64], .bfloat16⟩ ⟨[2, 4, 128, 128], .bfloat16⟩ 0.125
    rfl rfl (Or.inr rfl)

/-- C10: backward abstract evaluation depends only on the query, key and
value descriptors — two calls with identical query/key/value but
arbitrary grad-output and activation descriptors (and arbitrary scale)
return identical results; grad-output and activation are never
inspected. -/
theorem C10_bwd_abstract_ignores_grad_output_and_activation
    (grad_output1 grad_output2 activation1 activation2
      query key value : ShapedArray) (scale1 scale2 : Rat) :
    _dot_product_attention_bwd_abstract grad_output1 query key value
        activation1 scale1 =
    _dot_product_attention_bwd_abstract grad_output2 query key value
        activation2 scale2 := rfl

/-- C3 counterexample: forward abstract evaluation does NOT validate
cross-tensor shape agreement. Here Q has batch 2 and 4 heads while K has
batch 3 and 8 heads, and V has an entirely different shape, yet the call
succeeds and produces output descriptors instead of failing with a
shape-mismatch error. -/
theorem C3_counterexample_no_cross_shape_validation :
    _dot_product_attention_fwd_abstract ⟨[2, 128, 4, 64], .float16⟩
        ⟨[3, 128, 8, 64], .float16⟩ ⟨[5, 7, 9, 11], .float16⟩ 1 =
      .ok (⟨[2, 128, 4, 64], .float16⟩, ⟨[2, 4, 128, 128], .float16⟩) := rfl

/-- C3 (amended): forward abstract evaluation performs no cross-tensor
shape-agreement validation. Even when the batch or head axes of Q and K
disagree, or V has a different shape than K, a call with valid dtypes and
rank-4 Q/K succeeds and returns descriptors computed from the query shape
and the key's axis-1 length; the value shape is never inspected. -/
theorem C3_amended_fwd_abstract_ignores_shape_agreement
    (query key value : ShapedArray) (scale : Rat)
    (b q h d kb kv kh kd : Nat)
    (hq : query.shape = [b, q, h, d])
    (hk : key.shape = [kb, kv, kh, kd])
    (hmismatch : kb ≠ b ∨ kh ≠ h ∨ value.shape ≠ key.shape)
    (hqk : query.dtype = key.dtype)
    (hkv : key.dtype = value.dtype)
    (hsupp : query.dtype = JnpDtype.float16 ∨
             query.dtype = JnpDtype.bfloat16) :
    _dot_product_attention_fwd_abstract query key value scale =
      .ok (⟨[b, q, h, d], query.dtype⟩, ⟨[b, h, q, kv], query.dtype⟩) := by
  rcases hsupp with hs | hs <;>
    simp [_dot_product_attention_fwd_abstract, canonicalize_dtype, hq, hk,
      ← hqk, ← hkv, hs]

/-- Witness for the amended C3: Q batch 2 with 4 heads, K batch 3 with 8
heads, V of unrelated shape — the call still succeeds. -/
theorem C3_amended_witness :
    _dot_product_attention_fwd_abstract ⟨[2, 64, 4, 32], .float16⟩
        ⟨[3, 16, 8, 32], .float16⟩ ⟨[5, 7, 9, 11], .float16⟩ 1 =
      .ok (⟨[2, 64, 4, 32], .float16⟩, ⟨[2, 4, 64, 16], .float16⟩) :=
  C3_amended_fwd_abstract_ignores_shape_agreement ⟨[2, 64, 4, 32], .float16⟩
    ⟨[3, 16, 8, 32], .float16⟩ ⟨[5, 7, 9, 11], .float16⟩ 1
    2 64 4 32 3 16 8 32 rfl rfl (Or.inl (by decide)) rfl rfl (Or.inl rfl)

/-- C4: whenever the query/key/value dtypes are not all equal, or the
shared dtype is not fp16/bf16, both forward and backward abstract
evaluation fail with one of the two dtype-validation errors (the failed
`assert` on dtype equality or on dtype membership), so no output
descriptors are produced and nothing reaches kernel construction. -/
theorem C4_abstract_eval_dtype_validation
    (grad_output query key value activation : ShapedArray) (scale : Rat)
    (hbad : ¬ (query.dtype = key.dtype ∧ key.dtype = value.dtype ∧
               (query.dtype = JnpDtype.float16 ∨
                query.dtype = JnpDtype.bfloat16))) :
    (_dot_product_attention_fwd_abstract query key value scale =
        .error .dtypeMismatch ∨
     _dot_product_attention_fwd_abstract query key value scale =
        .error .unsupportedDtype) ∧
    (_dot_product_attention_bwd_abstract grad_output query key value
        activation scale = .error .dtypeMismatch ∨
     _dot_product_attention_bwd_abstract grad_output query key value
        activation scale = .error .unsupportedDtype) := by
  cases hq : query.dtype <;> cases hk : key.dtype <;>
    cases hv : value.dtype <;>
    simp_all [_dot_product_attention_fwd_abstract,
      _dot_product_attention_bwd_abstract, canonicalize_dtype]

/-- Witness for C4: Q is fp16 while K and V are bf16 — both abstract
evaluations fail with a dtype-validation error. -/
theorem C4_witness :
    (_dot_product_attention_fwd_abstract ⟨[2, 128, 4, 64], .float16⟩
        ⟨[2, 128, 4, 64], .bfloat16⟩ ⟨[2, 128, 4, 64], .bfloat16⟩ 1 =
        .error .dtypeMismatch ∨
     _dot_product_attention_fwd_abstract ⟨[2, 128, 4, 64], .float16⟩
        ⟨[2, 128, 4, 64], .bfloat16⟩ ⟨[2, 128, 4, 64], .bfloat16⟩ 1 =
        .error .unsupportedDtype) ∧
    (_dot_product_attention_bwd_abstract ⟨[2, 128, 4, 64], .float16⟩
        ⟨[2, 128, 4, 64], .float16⟩ ⟨[2, 128, 4, 64], .bfloat16⟩
        ⟨[2, 128, 4, 64], .bfloat16⟩ ⟨[2, 4, 128, 128], .float16⟩ 1 =
        .error .dtypeMismatch ∨
     _dot_product_attention_bwd_abstract ⟨[2, 128, 4, 64], .float16⟩
        ⟨[2, 128, 4, 64], .float16⟩ ⟨[2, 128, 4, 64], .bfloat16⟩
        ⟨[2, 128, 4, 64], .bfloat16⟩ ⟨[2, 4, 128, 128], .float16⟩ 1 =
        .error .unsupportedDtype) :=
  C4_abstract_eval_dtype_validation ⟨[2, 128, 4, 64], .float16⟩
    ⟨[2, 128, 4, 64], .float16⟩ ⟨[2, 128, 4, 64], .bfloat16⟩
    ⟨[2, 128, 4, 64], .bfloat16⟩ ⟨[2, 4, 128, 128], .float16⟩ 1 (by decide)

/-- C5: the backend-config encoder is deterministic — two calls with
identical arguments (batch size, head count, sequence lengths, dtype,
scale, dropout rate, flash-attention flag, causal-mask flag) produce
identical configuration records in every field. -/
theorem C5_backend_config_deterministic
    (b1 b2 h1 h2 q1 q2 kv1 kv2 : Nat) (d1 d2 : IrElementType)
    (s1 s2 dr1 dr2 : Rat) (f1 f2 c1 c2 : Bool)
    (hb : b1 = b2) (hh : h1 = h2) (hq : q1 = q2) (hkv : kv1 = kv2)
    (hd : d1 = d2) (hs : s1 = s2) (hdr : dr1 = dr2)
    (hf : f1 = f2) (hc : c1 = c2) :
    create_dot_product_attention_backend_config b1 h1 q1 kv1 d1 s1 dr1
        f1 c1 =
    create_dot_product_attention_backend_config b2 h2 q2 kv2 d2 s2 dr2
        f2 c2 := by
  subst hb hh hq hkv hd hs hdr hf hc
  rfl

/-- Witness for C5 at the spec's scenario arguments (scale 0.125). -/
theorem C5_backend_config_deterministic_witness :
    create_dot_product_attention_backend_config 2 4 128 128 .bf16Type
        0.125 0 false false =
    create_dot_product_attention_backend_config 2 4 128 128 .bf16Type
        0.125 0 false false :=
  C5_backend_config_deterministic 2 2 4 4 128 128 128 128 .bf16Type
    .bf16Type 0.125 0.125 0 0 false false false false
    rfl rfl rfl rfl rfl rfl rfl rfl rfl

/-- C6: the six dimension-numbering blocks of the configuration record are
fixed constants — two encoder calls that differ only in batch size,
sequence lengths or head count produce equal blocks for all six GEMM
stages. -/
theorem C6_dimension_numbers_shape_independent
    (b1 h1 q1 kv1 b2 h2 q2 kv2 : Nat) (d : IrElementType)
    (s dr : Rat) (f c : Bool) :
    (create_dot_product_attention_backend_config b1 h1 q1 kv1 d s dr
        f c).bmm1_dot_dimension_numbers =
      (create_dot_product_attention_backend_config b2 h2 q2 kv2 d s dr
        f c).bmm1_dot_dimension_numbers ∧
    (create_dot_product_attention_backend_config b1 h1 q1 kv1 d s dr
        f c).bmm2_dot_dimension_numbers =
      (create_dot_product_attention_backend_config b2 h2 q2 kv2 d s dr
        f c).bmm2_dot_dimension_numbers ∧
    (create_dot_product_attention_backend_config b1 h1 q1 kv1 d s dr
        f c).bmm1_grad_gemm1_dot_dimension_numbers =
      (create_dot_product_attention_backend_config b2 h2 q2 kv2 d s dr
        f c).bmm1_grad_gemm1_dot_dimension_numbers ∧
    (create_dot_product_attention_backend_config b1 h1 q1 kv1 d s dr
        f c).bmm1_grad_gemm2_dot_dimension_numbers =
      (create_dot_product_attention_backend_config b2 h2 q2 kv2 d s dr
        f c).bmm1_grad_gemm2_dot_dimension_numbers ∧
    (create_dot_product_attention_backend_config b1 h1 q1 kv1 d s dr
        f c).bmm2_grad_gemm1_dot_dimension_numbers =
      (create_dot_product_attention_backend_config b2 h2 q2 kv2 d s dr
        f c).bmm2_grad_gemm1_dot_dimension_numbers ∧
    (create_dot_product_attention_backend_config b1 h1 q1 kv1 d s dr
        f c).bmm2_grad_gemm2_dot_dimension_numbers =
      (create_dot_product_attention_backend_config b2 h2 q2 kv2 d s dr
        f c).bmm2_grad_gemm2_dot_dimension_numbers :=
  ⟨rfl, rfl, rfl, rfl, rfl, rfl⟩

/-- C7: every configuration record constructed by the forward or backward
lowering has dropout rate 0, causal-mask flag false, flash-attention flag
false and the fixed seed "42", regardless of input shapes, element type
or scale. -/
theorem C7_lowering_config_fixed_flags
    (query key value grad_output activation : RankedTensorType)
    (scale : Rat) :
    (∀ desc : CustomCallDescriptor,
        _dot_product_attention_fwd_cuda_lowering query key value scale =
          .ok desc →
        desc.backend_config.dropout_rate = 0 ∧
        desc.backend_config.is_causal_mask = false ∧
        desc.backend_config.is_flash_attention = false ∧
        desc.backend_config.seed = "42") ∧
    (∀ desc : CustomCallDescriptor,
        _dot_product_attention_bwd_cuda_lowering grad_output query key
          value activation scale = .ok desc →
        desc.backend_config.dropout_rate = 0 ∧
        desc.backend_config.is_causal_mask = false ∧
        desc.backend_config.is_flash_attention = false ∧
        desc.backend_config.seed = "42") := by
  constructor
  · intro desc hdesc
    unfold _dot_product_attention_fwd_cuda_lowering at hdesc
    split at hdesc
    · split at hdesc
      · simp only [Except.ok.injEq] at hdesc
        subst hdesc
        exact ⟨rfl, rfl, rfl, rfl⟩
      · simp at hdesc
    · simp at hdesc
  · intro desc hdesc
    unfold _dot_product_attention_bwd_cuda_lowering at hdesc
    split at hdesc
    · split at hdesc
      · simp only [Except.ok.injEq] at hdesc
        subst hdesc
        exact ⟨rfl, rfl, rfl, rfl⟩
      · simp at hdesc
    · simp at hdesc

/-- Witness for C7: the concrete forward and backward kernel invocations
on `(2, 128, 4, 64)` fp16 inputs carry configs with dropout 0, no causal
mask, no flash attention, and seed "42". -/
theorem C7_lowering_config_fixed_flags_witness :
    (fwd_lowering_example.backend_config.dropout_rate = 0 ∧
     fwd_lowering_example.backend_config.is_causal_mask = false ∧
     fwd_lowering_example.backend_config.is_flash_attention = false ∧
     fwd_lowering_example.backend_config.seed = "42") ∧
    (bwd_lowering_example.backend_config.dropout_rate = 0 ∧
     bwd_lowering_example.backend_config.is_causal_mask = false ∧
     bwd_lowering_example.backend_config.is_flash_attention = false ∧
     bwd_lowering_example.backend_config.seed = "42") :=
  ⟨(C7_lowering_config_fixed_flags ⟨[2, 128, 4, 64], .f16Type⟩
      ⟨[2, 128, 4, 64], .f16Type⟩ ⟨[2, 128, 4, 64], .f16Type⟩
      ⟨[2, 128, 4, 64], .f16Type⟩ ⟨[2, 4, 128, 128], .f16Type⟩ 1).1
      fwd_lowering_example rfl,
   (C7_lowering_config_fixed_flags ⟨[2, 128, 4, 64], .f16Type⟩
      ⟨[2, 128, 4, 64], .f16Type⟩ ⟨[2, 128, 4, 64], .f16Type⟩
      ⟨[2, 128, 4, 64], .f16Type⟩ ⟨[2, 4, 128, 128], .f16Type⟩ 1).2
      bwd_lowering_example rfl⟩

/-- C8 counterexample: for an element type with no backend tag (here
`F32Type`) the encoder does NOT fail — it returns a full configuration
record; the dictionary `.get` merely leaves the intermediate-tensor
element-type tag absent (`None`), and the rest of the record (e.g. the
seed) is populated as usual. -/
theorem C8_counterexample_config_produced_for_unsupported_dtype :
    (create_dot_product_attention_backend_config 2 4 128 128 .f32Type
        1 0 false false).intermediate_tensor_shape.element_type = none ∧
    (create_dot_product_attention_backend_config 2 4 128 128 .f32Type
        1 0 false false).seed = "42" := ⟨rfl, rfl⟩

/-- C8 (amended): for every dtype that has no defined backend type tag,
the encoder still produces a configuration record, whose
intermediate-tensor element-type tag is `None` (missing) rather than
raising an error. -/
theorem C8_amended_unsupported_dtype_yields_missing_tag
    (b h q kv : Nat) (dt : IrElementType) (s dr : Rat) (f c : Bool)
    (hdt : element_type_to_backend_config_type_mapping dt = none) :
    (create_dot_product_attention_backend_config b h q kv dt s dr
        f c).intermediate_tensor_shape.element_type = none := by
  simp [create_dot_product_attention_backend_config, hdt]

/-- Witness for the amended C8 at `F32Type`. -/
theorem C8_amended_witness :
    (create_dot_product_attention_backend_config 2 4 128 128 .f32Type
        1 0 false false).intermediate_tensor_shape.element_type = none :=
  C8_amended_unsupported_dtype_yields_missing_tag 2 4 128 128 .f32Type
    1 0 false false rfl

/-- C9 counterexample: a forward call whose query has rank 3 does not
always fail with the rank error — the dtype asserts run first, so with an
unsupported (fp32) dtype the call fails with the dtype-membership error
instead. -/
theorem C9_counterexample_rank3_query_dtype_checked_first :
    _dot_product_attention_fwd_abstract ⟨[2, 128, 4], .float32⟩
        ⟨[2, 128, 4, 64], .float32⟩ ⟨[2, 128, 4, 64], .float32⟩ 1 ≠
      .error .queryRankError ∧
    _dot_product_attention_fwd_abstract ⟨[2, 128, 4], .float32⟩
        ⟨[2, 128, 4, 64], .float32⟩ ⟨[2, 128, 4, 64], .float32⟩ 1 =
      .error .unsupportedDtype := by
  refine ⟨fun hcontra => ?_, rfl⟩
  have herr : (Except.error AbstractEvalError.unsupportedDtype :
      Except AbstractEvalError (ShapedArray × ShapedArray)) =
      .error .queryRankError := hcontra
  simp at herr

/-- C9 (amended): for every forward call whose query descriptor has rank 3
and whose query/key/value dtypes pass dtype validation (all equal and in
{fp16, bf16}), the call fails with the query rank error and no output
descriptors are produced; when dtype validation also fails, the dtype
error is raised first instead. -/
theorem C9_amended_rank3_query_rank_error
    (query key value : ShapedArray) (scale : Rat) (a b c : Nat)
    (hq : query.shape = [a, b, c])
    (hqk : query.dtype = key.dtype)
    (hkv : key.dtype = value.dtype)
    (hsupp : query.dtype = JnpDtype.float16 ∨
             query.dtype = JnpDtype.bfloat16) :
    _dot_product_attention_fwd_abstract query key value scale =
      .error .queryRankError := by
  rcases hsupp with hs | hs <;>
    simp [_dot_product_attention_fwd_abstract, canonicalize_dtype, hq,
      ← hqk, ← hkv, hs]

/-- Witness for the amended C9: a rank-3 fp16 query fails with the rank
error. -/
theorem C9_amended_witness :
    _dot_product_attention_fwd_abstract ⟨[2, 128, 4], .float16⟩
        ⟨[2, 128, 4, 64], .float16⟩ ⟨[2, 128, 4, 64], .float16⟩ 1 =
      .error .queryRankError :=
  C9_amended_rank3_query_rank_error ⟨[2, 128, 4], .float16⟩
    ⟨[2, 128, 4, 64], .float16⟩ ⟨[2, 128, 4, 64], .float16⟩ 1
    2 128 4 rfl rfl rfl (Or.inl rfl)

end FusedAttention
